import Mathlib

/-!
# netifmon — verification of the spec against `src/main.py`

Shallow embedding of the core of `main.py`: Python values that flow through the
program (snapshots are plain `dict`s produced by `netifaces` or parsed back from
JSON) are modelled by `PyVal`; the JSON persistence round trip, the `ipv6_prefix`
differ, the `ChangeGaugeDiffer.diff` comparison, `Metrics.__init__` /
`Metrics.refresh`, and the `threading.Timer` based refresh scheduler are each
embedded as executable Lean functions, and the spec's claims are settled as
theorems about those functions.
-/

/-- A Python `dict` key as used by the program: interface names are `str` keys,
address families (`netifaces.AF_INET6 = 10`) are `int` keys.  In Python,
`10 == "10"` is `False`, so the two kinds never compare equal. -/
inductive PyKey where
  | int (n : Int)
  | str (s : String)
deriving DecidableEq, Repr

/-- A Python value of the shapes the program manipulates: `None`, booleans,
ints, strings, lists and dicts.  Snapshots are `dict`s mapping interface names
to per-family address records. -/
inductive PyVal where
  | none
  | bool (b : Bool)
  | int (n : Int)
  | str (s : String)
  | list (xs : List PyVal)
  | dict (kvs : List (PyKey × PyVal))
deriving Repr

/-- Python truthiness for the shapes above: `None`, `False`, `0`, `""`, `[]`
and an empty dict are falsy, everything else truthy. -/
def PyVal.truthy : PyVal → Bool
  | .none => false
  | .bool b => b
  | .int n => n != 0
  | .str s => s != ""
  | .list xs => !xs.isEmpty
  | .dict kvs => !kvs.isEmpty

/-- Python `d.get(k)` on a dict represented as an association list with unique
keys: the value of the first matching key, `None` when absent. -/
def dictGet : List (PyKey × PyVal) → PyKey → PyVal
  | [], _ => .none
  | (k', v) :: rest, k => if k' = k then v else dictGet rest k

/-- Key lookup as an `Option`: distinguishes an absent key from a key bound to
`None` (used to state claims; `dictGet` is what the code's `.get` does). -/
def dictFind : List (PyKey × PyVal) → PyKey → Option PyVal
  | [], _ => Option.none
  | (k', v) :: rest, k => if k' = k then some v else dictFind rest k

/-- Insert-or-update, keeping the original position of an existing key —
Python `d[k] = v` on a dict represented in insertion order. -/
def upsert : List (PyKey × PyVal) → PyKey → PyVal → List (PyKey × PyVal)
  | [], k, v => [(k, v)]
  | (k', v') :: rest, k, v =>
      if k' = k then (k', v) :: rest else (k', v') :: upsert rest k v

/-- Build a Python dict from a sequence of key/value pairs in order (as a dict
comprehension or `json.loads` does): later duplicates overwrite in place. -/
def fromPairs (l : List (PyKey × PyVal)) : List (PyKey × PyVal) :=
  l.foldl (fun acc kv => upsert acc kv.1 kv.2) []

/-! ## Persistence layer: `json.dump` then `json.load` (`main.py` 74-79, 106-108)

`Metrics.refresh` writes `json.dump(new_state.new, file)` and
`Metrics.__init__` reads `json.load(file)`.  JSON objects only have string
keys, so `json.dump` converts an `int` dict key `n` to the string `str(n)`;
`json.load` parses it back as that string.  Values of the shapes in `PyVal`
otherwise survive unchanged; duplicate keys produced by the conversion
collapse, later entries overwriting earlier ones in place. -/

/-- How `json.dump` renders a dict key: `int` keys become their decimal
string, string keys stay themselves. -/
def stringifyKey : PyKey → PyKey
  | .int n => .str (toString n)
  | .str s => .str s

mutual
/-- The composite `json.loads(json.dumps(v))` for the value shapes the
program persists. -/
def jsonRT : PyVal → PyVal
  | .none => .none
  | .bool b => .bool b
  | .int n => .int n
  | .str s => .str s
  | .list xs => .list (jsonRTList xs)
  | .dict kvs => .dict (fromPairs (jsonRTPairs kvs))

def jsonRTList : List PyVal → List PyVal
  | [] => []
  | x :: xs => jsonRT x :: jsonRTList xs

def jsonRTPairs : List (PyKey × PyVal) → List (PyKey × PyVal)
  | [] => []
  | (k, v) :: kvs => (stringifyKey k, jsonRT v) :: jsonRTPairs kvs
end

/-! ## `netaddr.ip.IPNetwork(f"{addr}/{plen}").network` (`main.py` 178-180)

The differ builds `IPNetwork(f"{addr}/{self.prefix_length}")` from the first
assigned address and reads its `.network`, i.e. the address with the low
`128 - plen` bits cleared.  We model the parse of a plain IPv6 literal
(hex groups separated by `:`, with at most one `::` run compressing at least
one zero group); any string outside this shape fails to parse, which in the
code is an exception raised out of `IPNetwork`. -/

/-- Value of a hex digit, case-insensitive, computed from the character code. -/
def hexDigitVal (c : Char) : Option Nat :=
  if '0' ≤ c ∧ c ≤ '9' then some (c.toNat - Char.toNat '0')
  else if 'a' ≤ c ∧ c ≤ 'f' then some (c.toNat - Char.toNat 'a' + 10)
  else if 'A' ≤ c ∧ c ≤ 'F' then some (c.toNat - Char.toNat 'A' + 10)
  else Option.none

/-- Parse one hex group of an IPv6 literal: one to four hex digits. -/
def parseGroup (g : List Char) : Option Nat :=
  if g.length = 0 ∨ 4 < g.length then Option.none
  else g.foldl
    (fun acc c => do
      let a ← acc
      let d ← hexDigitVal c
      pure (a * 16 + d))
    (some 0)

/-- Fold eight 16-bit groups into the 128-bit address value. -/
def combineGroups (gs : List Nat) : Nat :=
  gs.foldl (fun a g => a * 65536 + g) 0

/-- Whether the first list is a prefix of the second, by character. -/
def isPrefixOfChars : List Char → List Char → Bool
  | [], _ => true
  | _ :: _, [] => false
  | a :: as, b :: bs => a = b && isPrefixOfChars as bs

/-- Python `str.split(sep)` over character lists: non-overlapping,
left-to-right.  The fuel argument (instantiated with the list length) makes
the recursion structural; it never runs out because every step consumes at
least one character. -/
def splitOnAux (sep : List Char) : Nat → List Char → List (List Char)
  | _, [] => [[]]
  | 0, l => [l]
  | fuel + 1, x :: xs =>
      if isPrefixOfChars sep (x :: xs) then
        [] :: splitOnAux sep fuel ((x :: xs).drop sep.length)
      else
        match splitOnAux sep fuel xs with
        | [] => [[x]]
        | g :: gs => (x :: g) :: gs

/-- Python `str.split(sep)` for a non-empty separator. -/
def splitOnChars (sep l : List Char) : List (List Char) :=
  splitOnAux sep l.length l

/-- Parse a plain IPv6 literal (no zone id, no embedded IPv4 dotted quad):
hex groups separated by `:`, at most one `::` compressing at least one zero
group. -/
def parseIPv6 (s : String) : Option Nat :=
  match splitOnChars [':', ':'] s.data with
  | [whole] =>
      let gs := splitOnChars [':'] whole
      if gs.length = 8 then (gs.mapM parseGroup).map combineGroups
      else Option.none
  | [l, r] =>
      let lg := if l.isEmpty then [] else splitOnChars [':'] l
      let rg := if r.isEmpty then [] else splitOnChars [':'] r
      if lg.length + rg.length ≤ 7 then do
        let lv ← lg.mapM parseGroup
        let rv ← rg.mapM parseGroup
        pure (combineGroups (lv ++ List.replicate (8 - lv.length - rv.length) 0 ++ rv))
      else Option.none
  | _ => Option.none

/-- Clear the low `128 - plen` bits of a 128-bit address value. -/
def maskAddr (a : Nat) (plen : Nat) : Nat :=
  a - a % 2 ^ (128 - plen)

/-- The value of `IPNetwork(f"{addr}/{plen}").network`: `Option.none` models the
exception `IPNetwork` raises on a malformed address or a prefix length
over 128. -/
def ipNetworkNetwork (s : String) (plen : Nat) : Option Nat :=
  if plen ≤ 128 then (parseIPv6 s).map (fun a => maskAddr a plen)
  else Option.none

/-- Rendering `f"{addr}"` for the value found under `"addr"`: strings render as
themselves, ints in decimal; the renderings of the remaining shapes
(`None`, bools, lists, dicts) never parse as an IPv6 literal, exactly like
the real renderings, so a fixed non-address placeholder stands for them. -/
def pyStr : PyVal → String
  | .str s => s
  | .int n => toString n
  | .bool b => if b then "True" else "False"
  | .none => "None"
  | .list _ => "[...]"
  | .dict _ => "(dict)"

/-! ## The `ipv6_prefix` differ (`main.py` 152-187)

Its `get` is a short-circuiting generator chain over the snapshot; the model
returns `Except`: `Except.ok Option.none` is the chain producing no value (the
function `the` then returns `None`), `Except.ok (some v)` a masked prefix, and
`Except.error` an exception escaping `get` (attribute errors on non-dict
values, iteration over a non-list, or an `IPNetwork` parse failure). -/

/-- The key `netifaces.AF_INET6`, the integer 10. -/
def AF_INET6 : PyKey := .int 10

namespace Ipv6PrefixDiffer

/-- Embedding of `ipv6_prefix.get` (`main.py` 176-187), written `ipv6_prefix`
in the source.  Each filter of the comprehension becomes one step of the
option chain, in the source's order. -/
def get (iface : String) (plen : Nat) (interfaces : PyVal) : Except String (Option Nat) :=
  match interfaces with
  | .none => .ok Option.none
  | .dict kvs =>
      let iv := dictGet kvs (.str iface)
      if iv.truthy then
        match iv with
        | .dict ikvs =>
            let addresses := dictGet ikvs AF_INET6
            if addresses.truthy then
              match addresses with
              | .list (first :: _) =>
                  match first with
                  | .dict fkvs =>
                      let addr := dictGet fkvs (.str "addr")
                      if addr.truthy then
                        match ipNetworkNetwork (pyStr addr) plen with
                        | some v => .ok (some v)
                        | Option.none => .error "AddrFormatError"
                      else .ok Option.none
                  | _ => .error "AttributeError"
              | _ => .error "TypeError"
            else .ok Option.none
        | _ => .error "AttributeError"
      else .ok Option.none
  | _ => .error "AttributeError"

end Ipv6PrefixDiffer

/-- Embedding of `ChangeGaugeDiffer.changed` (`main.py` 143-144):
Python `old != new` over optional extracted values. -/
def ChangeGaugeDiffer.changed {V : Type} [DecidableEq V] (old new : Option V) : Bool :=
  decide (old ≠ new)

/-- Embedding of `ChangeGaugeDiffer.diff` (`main.py` 146-149): 1 when
`changed`, else 0 (the gauge is set to the same number, so the returned value
also models the gauge). -/
def ChangeGaugeDiffer.diff {V : Type} [DecidableEq V] (old new : Option V) : Nat :=
  if ChangeGaugeDiffer.changed old new then 1 else 0

/-! ## The `Metrics` state store (`main.py` 30-110) -/

/-- Embedding of `MetricsState`: `old`/`new` are `Optional[dict]` (the
`PyVal.none` value standing for Python `None`), `diff` maps differ names to
diff results. -/
structure MetricsState where
  old : PyVal
  new : PyVal
  diff : List (String × Nat)
deriving Repr

/-- State of `MetricsState.__init__` (`main.py` 35-38). -/
def MetricsState.initial : MetricsState :=
  { old := .none, new := .none, diff := [] }

/-- The configuration fields of `Metrics` fixed at construction. -/
structure MetricsCfg where
  interface : String
  prefix_length : Nat
  hasFilePath : Bool
deriving Repr

/-- What the operating system reports through `netifaces`: the interface list
and each interface's address record; `Option.none` from `ifaddresses` models
the `ValueError` netifaces raises for an unknown interface name. -/
structure OsState where
  interfaces : List String
  ifaddresses : String → Option PyVal

/-- Embedding of the snapshot capture at `main.py` 92-95:
`{interface: netifaces.ifaddresses(self.interface) for interface in
netifaces.interfaces()}`.  Note the body calls `ifaddresses` on
`self.interface` (`cfg.interface` here), not on the comprehension variable. -/
def captureSnapshot (cfg : MetricsCfg) (os : OsState) : Except String PyVal := do
  let kvs ← os.interfaces.mapM (fun i =>
    match os.ifaddresses cfg.interface with
    | some r => Except.ok ((PyKey.str i, r) : PyKey × PyVal)
    | Option.none => Except.error "ValueError")
  Except.ok (PyVal.dict (fromPairs kvs))

/-- Result of `json.load` in `Metrics.__init__` (`main.py` 74-83):
the file may be missing, unparseable, or hold a value. -/
inductive LoadResult where
  | fileNotFound
  | jsonDecodeError
  | loaded (v : PyVal)
deriving Repr

/-- Embedding of the persisted-state part of `Metrics.__init__`
(`main.py` 61, 71-83): start from `MetricsState.initial`; when a file path is
configured and `json.load` succeeds with a truthy value, seed `old` and `new`
with it; a missing file, a parse failure, or a falsy value leave the initial
state. -/
def Metrics.init (cfg : MetricsCfg) (lr : LoadResult) : MetricsState :=
  if cfg.hasFilePath then
    match lr with
    | .loaded v =>
        if v.truthy then { old := v, new := v, diff := [] }
        else MetricsState.initial
    | _ => MetricsState.initial
  else MetricsState.initial

/-- Embedding of `Metrics.refresh` (`main.py` 86-110).  The registry holds the
single `ipv6_prefix` differ (`main.py` 63-69), whose `name()` is
`"ipv6_prefix"`.  `saveOk = false` models `open`/`json.dump` raising at
lines 106-108; nothing catches that exception, so it escapes as
`Except.error` and the final assignment `self.state = new_state` is never
reached.  On success the returned state is the one installed. -/
def Metrics.refresh (cfg : MetricsCfg) (os : OsState) (saveOk : Bool)
    (st : MetricsState) : Except String MetricsState :=
  match captureSnapshot cfg os with
  | .error e => .error e
  | .ok newSnap =>
    match Ipv6PrefixDiffer.get cfg.interface cfg.prefix_length st.new with
    | .error e => .error e
    | .ok old =>
      match Ipv6PrefixDiffer.get cfg.interface cfg.prefix_length newSnap with
      | .error e => .error e
      | .ok new =>
        if cfg.hasFilePath && !saveOk then .error "OSError"
        else .ok { old := st.new, new := newSnap,
                   diff := [("ipv6_prefix", ChangeGaugeDiffer.diff old new)] }

/-- The `self.state` field after a call to `refresh()`: replaced by the new
state on success, untouched when an exception escaped `refresh` (the
assignment at `main.py` 110 is the method's last statement). -/
def Metrics.refreshExposed (cfg : MetricsCfg) (os : OsState) (saveOk : Bool)
    (st : MetricsState) : MetricsState :=
  match Metrics.refresh cfg os saveOk st with
  | .ok st' => st'
  | .error _ => st

/-- A sequence of successful refresh cycles, one per observed OS state. -/
def refreshSeq (cfg : MetricsCfg) (oss : List OsState) (st : MetricsState) :
    Except String MetricsState :=
  oss.foldlM (fun s os => Metrics.refresh cfg os true s) st

/-! ## The refresh scheduler (`main.py` 212-250)

The global `timer` is a `threading.Timer`; `start_timer` creates a **new**
timer object and starts it; the callback `refresh` runs `metrics.refresh()`
and then unconditionally calls `start_timer`; `interrupt` calls `cancel()` on
whichever timer object the global currently holds.  `Timer.cancel` only
prevents a timer that has not fired yet from firing; it does nothing to a
callback that is already running.

The model is a small step relation over the observable scheduler state:
`scheduled` — the current timer object has been started and has not yet fired
or been cancelled; `cancelled` — `cancel()` has been called on the current
timer object; `running` — the `refresh` callback is executing.  Events:
`fireBegin` (the pending timer fires and the callback starts), `interrupt`
(`interrupt()` is invoked), `fireEnd` (the callback finishes: `start_timer`
replaces the global with a fresh started timer). -/

/-- Observable state of the global `timer` and its callback. -/
structure TimerState where
  scheduled : Bool
  cancelled : Bool
  running : Bool
deriving DecidableEq, Repr

/-- Events witnessed by the scheduler state. -/
inductive SchedEvent where
  | fireBegin
  | interrupt
  | fireEnd
deriving DecidableEq, Repr

/-- When an event can occur: a timer fires only if started and not cancelled
and the callback is not already running (cycles are strictly sequential);
`interrupt()` may be invoked at any time; the callback finishes only if it is
running. -/
def schedEnabled : TimerState → SchedEvent → Bool
  | s, .fireBegin => s.scheduled && !s.cancelled && !s.running
  | _, .interrupt => true
  | s, .fireEnd => s.running

/-- Effect of an event.  `fireEnd` embeds `start_timer` (`main.py` 230-244):
the global is rebound to a brand-new started timer, so `cancelled` is reset —
a `cancel()` issued against the old, already-fired timer does not carry over. -/
def schedStep : TimerState → SchedEvent → TimerState
  | s, .fireBegin => { s with scheduled := false, running := true }
  | s, .interrupt => { s with cancelled := true }
  | _, .fireEnd => { scheduled := true, cancelled := false, running := false }

/-- Run a sequence of events, `Option.none` when some event was not enabled. -/
def schedRun : TimerState → List SchedEvent → Option TimerState
  | s, [] => some s
  | s, e :: es => if schedEnabled s e then schedRun (schedStep s e) es else Option.none

/-- Scheduler state right after `start_refresh_loop` → `start_timer`
(`main.py` 246-250): one started timer, not cancelled, callback not running. -/
def schedStart : TimerState :=
  { scheduled := true, cancelled := false, running := false }

/-! ## Shared concrete values used by witnesses and counterexamples -/

/-- An address entry as netifaces returns it: a dict with an `"addr"` field. -/
def addrEntry (a : String) : PyVal := .dict [(.str "addr", .str a)]

/-- A snapshot with a single interface carrying one IPv6 address. -/
def snapOneIface (iface a : String) : PyVal :=
  .dict [(.str iface, .dict [(AF_INET6, .list [addrEntry a])])]

/-- A configuration without a persistence file path (`file_path` falsy). -/
def cfgNoFile : MetricsCfg := { interface := "eth0", prefix_length := 64, hasFilePath := false }

/-- The default configuration: interface `eth0`, prefix length 64, a
persistence file configured. -/
def cfgFile : MetricsCfg := { interface := "eth0", prefix_length := 64, hasFilePath := true }

/-- An OS reporting one interface with an empty address record. -/
def osSimple : OsState := { interfaces := ["eth0"], ifaddresses := fun _ => some (.dict []) }

/-- The state `Metrics.refresh` installs from `MetricsState.initial` under
`osSimple`. -/
def stAfterSimple : MetricsState :=
  { old := .none, new := .dict [(.str "eth0", .dict [])], diff := [("ipv6_prefix", 0)] }

/-- The address record the OS reports for `eth0` in the two-interface example. -/
def recEth0 : PyVal := .dict [(AF_INET6, .list [addrEntry "2001:db8::1"])]

/-- The address record the OS reports for `lo` in the two-interface example. -/
def recLo : PyVal := .dict [(AF_INET6, .list [addrEntry "::1"])]

/-- An OS reporting two interfaces with distinct address records. -/
def osTwoIfaces : OsState :=
  { interfaces := ["eth0", "lo"],
    ifaddresses := fun i => if i = "eth0" then some recEth0 else some recLo }

/-- The snapshot `Metrics.refresh` persists in the round-trip example: the
address-family key is the integer 10, as netifaces produces it. -/
def snapPersisted : PyVal := snapOneIface "eth0" "2001:db8::1"

/-! ## Lemmas -/

/-- Python `d.get(k)` is the found value, `None` when the key is absent. -/
theorem dictGet_eq_find (l : List (PyKey × PyVal)) (k : PyKey) :
    dictGet l k = (dictFind l k).getD PyVal.none := by
  induction l with
  | nil => rfl
  | cons kv rest ih =>
      obtain ⟨k', v⟩ := kv
      by_cases h : k' = k <;> simp [dictGet, dictFind, h, ih]

/-! ## Claims -/

/-- C6: `ChangeGaugeDiffer.diff` returns 0 on two absent values, 1 between an
absent and a present value in either order, 0 on equal present values, 1 on
distinct present values — i.e. 1 exactly when old and new differ under value
equality with absence counting as a distinct value. -/
theorem C6_diff_value_inequality {V : Type} [DecidableEq V] (v v₁ v₂ : V)
    (h : v₁ ≠ v₂) :
    ChangeGaugeDiffer.diff (Option.none : Option V) Option.none = 0 ∧
    ChangeGaugeDiffer.diff Option.none (some v) = 1 ∧
    ChangeGaugeDiffer.diff (some v) Option.none = 1 ∧
    ChangeGaugeDiffer.diff (some v) (some v) = 0 ∧
    ChangeGaugeDiffer.diff (some v₁) (some v₂) = 1 ∧
    (∀ o n : Option V, ChangeGaugeDiffer.diff o n = if o = n then 0 else 1) := by
  refine ⟨?_, ?_, ?_, ?_, ?_, ?_⟩
  · simp [ChangeGaugeDiffer.diff, ChangeGaugeDiffer.changed]
  · simp [ChangeGaugeDiffer.diff, ChangeGaugeDiffer.changed]
  · simp [ChangeGaugeDiffer.diff, ChangeGaugeDiffer.changed]
  · simp [ChangeGaugeDiffer.diff, ChangeGaugeDiffer.changed]
  · simp [ChangeGaugeDiffer.diff, ChangeGaugeDiffer.changed, h]
  · intro o n
    by_cases he : o = n <;> simp [ChangeGaugeDiffer.diff, ChangeGaugeDiffer.changed, he]

/-- Witness for C6 at `V = Nat`, `v = 5`, `v₁ = 0`, `v₂ = 1`. -/
theorem C6_diff_value_inequality_witness :
    ChangeGaugeDiffer.diff (some (0 : Nat)) (some 1) = 1 :=
  (C6_diff_value_inequality (5 : Nat) 0 1 (by decide)).2.2.2.2.1

/-- C5: the `ipv6_prefix` differ's `get` returns no value — `Except.ok
Option.none`, in particular without raising — whenever the snapshot is absent,
or the configured interface key is absent from it, or that interface's
IPv6 address-family entry is absent or an empty list, or the first address
entry lacks an `"addr"` field. -/
theorem C5_get_absence_chain (iface : String) (plen : Nat) (S : PyVal)
    (h :
      S = PyVal.none ∨
      (∃ kvs, S = PyVal.dict kvs ∧ dictFind kvs (.str iface) = Option.none) ∨
      (∃ kvs ikvs, S = PyVal.dict kvs ∧
        dictFind kvs (.str iface) = some (PyVal.dict ikvs) ∧
        (dictFind ikvs AF_INET6 = Option.none ∨
         dictFind ikvs AF_INET6 = some (PyVal.list []))) ∨
      (∃ kvs ikvs rest fkvs, S = PyVal.dict kvs ∧
        dictFind kvs (.str iface) = some (PyVal.dict ikvs) ∧
        dictFind ikvs AF_INET6 = some (PyVal.list (PyVal.dict fkvs :: rest)) ∧
        dictFind fkvs (.str "addr") = Option.none)) :
    Ipv6PrefixDiffer.get iface plen S = .ok Option.none := by
  rcases h with rfl | ⟨kvs, rfl, hf⟩ | ⟨kvs, ikvs, rfl, hif, hfam⟩ |
    ⟨kvs, ikvs, rest, fkvs, rfl, hif, hfam, haddr⟩
  · rfl
  · simp [Ipv6PrefixDiffer.get, dictGet_eq_find, hf, PyVal.truthy]
  · cases ikvs with
    | nil => simp [Ipv6PrefixDiffer.get, dictGet_eq_find, hif, PyVal.truthy]
    | cons p ps =>
        rcases hfam with hfam | hfam <;>
          simp [Ipv6PrefixDiffer.get, dictGet_eq_find, hif, hfam, PyVal.truthy]
  · cases ikvs with
    | nil => simp [dictFind] at hfam
    | cons p ps =>
        simp [Ipv6PrefixDiffer.get, dictGet_eq_find, hif, hfam, haddr, PyVal.truthy]

/-- Witness for C5: an absent snapshot, and a snapshot lacking the
configured interface, both give no value. -/
theorem C5_get_absence_chain_witness :
    Ipv6PrefixDiffer.get "eth0" 64 PyVal.none = .ok Option.none ∧
    Ipv6PrefixDiffer.get "eth0" 64 (snapOneIface "wlan0" "2001:db8::1") = .ok Option.none :=
  ⟨C5_get_absence_chain "eth0" 64 PyVal.none (Or.inl rfl),
   C5_get_absence_chain "eth0" 64 (snapOneIface "wlan0" "2001:db8::1")
    (Or.inr (Or.inl ⟨_, rfl, rfl⟩))⟩

/-- C9: when the configured interface's first IPv6 address entry carries a
present (valid, non-empty) address, `get` returns that address masked with the
configured prefix length — the network prefix; in particular `2001:db8::1` and
`2001:db8::2` at prefix length 64 extract the same prefix value
`2001:db8::/64`, so `diff` between the two cycles reports 0. -/
theorem C9_get_masks_address (iface : String) (plen : Nat)
    (kvs ikvs fkvs : List (PyKey × PyVal)) (rest : List PyVal) (a : String) (n : Nat)
    (hif : dictFind kvs (.str iface) = some (PyVal.dict ikvs))
    (hfam : dictFind ikvs AF_INET6 = some (PyVal.list (PyVal.dict fkvs :: rest)))
    (haddr : dictFind fkvs (.str "addr") = some (PyVal.str a))
    (hne : a ≠ "")
    (hp : parseIPv6 a = some n)
    (hlen : plen ≤ 128) :
    Ipv6PrefixDiffer.get iface plen (PyVal.dict kvs) = .ok (some (maskAddr n plen)) ∧
    (Ipv6PrefixDiffer.get "eth0" 64 (snapOneIface "eth0" "2001:db8::1") =
       Ipv6PrefixDiffer.get "eth0" 64 (snapOneIface "eth0" "2001:db8::2") ∧
     Ipv6PrefixDiffer.get "eth0" 64 (snapOneIface "eth0" "2001:db8::1") =
       .ok (some 42540766411282592856903984951653826560) ∧
     ChangeGaugeDiffer.diff (some (42540766411282592856903984951653826560 : Nat))
       (some 42540766411282592856903984951653826560) = 0) := by
  constructor
  · cases ikvs with
    | nil => simp [dictFind] at hfam
    | cons p ps =>
        simp [Ipv6PrefixDiffer.get, dictGet_eq_find, hif, hfam, haddr, PyVal.truthy,
          hne, pyStr, ipNetworkNetwork, hlen, hp]
  · exact ⟨rfl, rfl, by simp [ChangeGaugeDiffer.diff, ChangeGaugeDiffer.changed]⟩

/-- Witness for C9 at the spec's own scenario value `2001:db8::1`, prefix
length 64. -/
theorem C9_get_masks_address_witness :
    Ipv6PrefixDiffer.get "eth0" 64 (snapOneIface "eth0" "2001:db8::1") =
      .ok (some 42540766411282592856903984951653826560) :=
  (C9_get_masks_address "eth0" 64
    [(.str "eth0", .dict [(AF_INET6, .list [addrEntry "2001:db8::1"])])]
    [(AF_INET6, .list [addrEntry "2001:db8::1"])]
    [(.str "addr", .str "2001:db8::1")] [] "2001:db8::1"
    42540766411282592856903984951653826561
    rfl rfl rfl (by decide) rfl (by decide)).1

/-- A successful `refresh` sets `old` to the previous `new` and `new` to the
snapshot captured from the OS (`main.py` 91-95, 110). -/
theorem Metrics.refresh_ok (cfg : MetricsCfg) (os : OsState) (saveOk : Bool)
    (st st' : MetricsState) (h : Metrics.refresh cfg os saveOk st = .ok st') :
    st'.old = st.new ∧ captureSnapshot cfg os = .ok st'.new := by
  unfold Metrics.refresh at h
  split at h
  · exact Except.noConfusion h
  · rename_i snap hc
    split at h
    · exact Except.noConfusion h
    · split at h
      · exact Except.noConfusion h
      · by_cases hs : (cfg.hasFilePath && !saveOk) = true
        · rw [if_pos hs] at h
          exact Except.noConfusion h
        · rw [if_neg hs] at h
          injection h with h'
          rw [← h']
          exact ⟨rfl, hc⟩

/-- C7: after a sequence of successful refresh calls followed by one more, the
exposed state's `old` equals the `new` produced by the previous call — and
when there was no previous call, the baseline `new` loaded at construction. -/
theorem C7_old_equals_previous_new (cfg : MetricsCfg) (oss : List OsState)
    (osN : OsState) (st0 stPrev stN : MetricsState)
    (h₁ : refreshSeq cfg oss st0 = .ok stPrev)
    (h₂ : Metrics.refresh cfg osN true stPrev = .ok stN) :
    stN.old = stPrev.new ∧ (oss = [] → stN.old = st0.new) := by
  have hm := Metrics.refresh_ok cfg osN true stPrev stN h₂
  refine ⟨hm.1, ?_⟩
  rintro rfl
  simp [refreshSeq, pure, Except.pure] at h₁
  rw [hm.1, ← h₁]

/-- Witness for C7: a first refresh (N = 1) from the initial state under
`osSimple`; its `old` is the baseline `new`, here absent. -/
theorem C7_old_equals_previous_new_witness :
    stAfterSimple.old = MetricsState.initial.new ∧
    (([] : List OsState) = [] → stAfterSimple.old = MetricsState.initial.new) :=
  C7_old_equals_previous_new cfgNoFile [] osSimple MetricsState.initial
    MetricsState.initial stAfterSimple rfl rfl

/-- C10: if any step of `refresh` raises before the final installation of the
new state — snapshot capture, a differ invocation, or the persistence write —
the previously exposed `RefreshState` (`old`, `new` and the diff map) is left
entirely unchanged. -/
theorem C10_failed_cycle_leaves_state (cfg : MetricsCfg) (os : OsState)
    (saveOk : Bool) (st : MetricsState) (e : String)
    (h : Metrics.refresh cfg os saveOk st = .error e) :
    Metrics.refreshExposed cfg os saveOk st = st := by
  simp [Metrics.refreshExposed, h]

/-- Witness for C10: a failing persistence write leaves the initial state. -/
theorem C10_failed_cycle_leaves_state_witness :
    Metrics.refreshExposed cfgFile osSimple false MetricsState.initial =
      MetricsState.initial :=
  C10_failed_cycle_leaves_state cfgFile osSimple false MetricsState.initial
    "OSError" rfl

/-- Counterexample to C3: with a persistence file configured, a failing write
(`saveOk = false`) makes `refresh` raise — the method does **not** complete —
and the exposed state stays the pre-cycle state instead of being replaced by
the new cycle's values (which a successful run shows would have a non-empty
diff map).  The write at `main.py` 106-108 has no `try`, so the exception
skips the assignment at line 110. -/
theorem C3_counterexample :
    Metrics.refresh cfgFile osSimple false MetricsState.initial = .error "OSError" ∧
    Metrics.refreshExposed cfgFile osSimple false MetricsState.initial =
      MetricsState.initial ∧
    Metrics.refresh cfgFile osSimple true MetricsState.initial = .ok stAfterSimple ∧
    stAfterSimple.diff ≠ MetricsState.initial.diff :=
  ⟨rfl, rfl, rfl, by decide⟩

/-- C3 as amended: in a cycle that would otherwise succeed, a failing
persistence write makes `refresh` raise the error past its caller, and the
in-memory `RefreshState` keeps the previous cycle's values — it is *not*
updated to the new cycle's values. -/
theorem C3_save_failure_aborts_refresh (cfg : MetricsCfg) (os : OsState)
    (st stOk : MetricsState)
    (hf : cfg.hasFilePath = true)
    (h : Metrics.refresh cfg os true st = .ok stOk) :
    Metrics.refresh cfg os false st = .error "OSError" ∧
    Metrics.refreshExposed cfg os false st = st := by
  have hmain : Metrics.refresh cfg os false st = .error "OSError" := by
    unfold Metrics.refresh at h ⊢
    split at h
    · exact Except.noConfusion h
    · split at h
      · exact Except.noConfusion h
      · split at h
        · exact Except.noConfusion h
        · rw [if_pos (by simp [hf])]
  exact ⟨hmain, by simp [Metrics.refreshExposed, hmain]⟩

/-- Witness for C3's amended theorem at a concrete successful cycle. -/
theorem C3_save_failure_aborts_refresh_witness :
    Metrics.refresh cfgFile osSimple false MetricsState.initial = .error "OSError" ∧
    Metrics.refreshExposed cfgFile osSimple false MetricsState.initial =
      MetricsState.initial :=
  C3_save_failure_aborts_refresh cfgFile osSimple MetricsState.initial
    stAfterSimple rfl rfl

/-- Counterexample to C8: an empty dict is a well-formed persisted snapshot
(`json.load` succeeds on `"{}"`), yet `if file_data:` at `main.py` 77 is false
for it, so the initial state keeps `old = new = None` instead of
`old = new = X`. -/
theorem C8_counterexample :
    ¬ ((Metrics.init cfgFile (.loaded (PyVal.dict []))).old = PyVal.dict [] ∧
       (Metrics.init cfgFile (.loaded (PyVal.dict []))).new = PyVal.dict []) :=
  fun h => PyVal.noConfusion h.1

/-- C8 as amended: with a file path configured, a missing file or malformed
content leaves `old` and `new` both absent; a load that yields a *truthy*
(non-empty, non-null) snapshot X seeds `old = new = X`; a falsy loaded value
(empty dict, `null`, …) is treated like absent state. -/
theorem C8_init_seeding (cfg : MetricsCfg) (v : PyVal)
    (hf : cfg.hasFilePath = true) (ht : v.truthy = true) :
    Metrics.init cfg .fileNotFound = MetricsState.initial ∧
    Metrics.init cfg .jsonDecodeError = MetricsState.initial ∧
    Metrics.init cfg (.loaded v) = { old := v, new := v, diff := [] } ∧
    (∀ w : PyVal, w.truthy = false →
      Metrics.init cfg (.loaded w) = MetricsState.initial) := by
  refine ⟨by simp [Metrics.init, hf], by simp [Metrics.init, hf],
    by simp [Metrics.init, hf, ht], ?_⟩
  intro w hw
  simp [Metrics.init, hf, hw]

/-- Witness for C8's amended theorem at a concrete non-empty snapshot. -/
theorem C8_init_seeding_witness :
    Metrics.init cfgFile (.loaded snapPersisted) =
      { old := snapPersisted, new := snapPersisted, diff := [] } :=
  (C8_init_seeding cfgFile snapPersisted rfl rfl).2.2.1

/-- From any state whose current timer object is cancelled and whose callback
is not running, no event sequence ever makes another refresh cycle begin:
`fireBegin` is disabled and stays disabled. -/
theorem schedRun_cancelled_no_fire (es : List SchedEvent) :
    ∀ s s' : TimerState, s.cancelled = true → s.running = false →
      schedRun s es = some s' → SchedEvent.fireBegin ∉ es := by
  induction es with
  | nil => intro s s' _ _ _; simp
  | cons e es ih =>
      intro s s' hc hr h
      cases e with
      | fireBegin => simp [schedRun, schedEnabled, hc] at h
      | interrupt =>
          have he : schedEnabled s SchedEvent.interrupt = true := by simp [schedEnabled]
          rw [schedRun, if_pos he] at h
          have hni := ih (schedStep s SchedEvent.interrupt) s' (by simp [schedStep])
            (by simp [schedStep, hr]) h
          simp [hni]
      | fireEnd => simp [schedRun, schedEnabled, hr] at h

/-- Counterexample to C4: starting from a freshly started timer, the trace
"timer fires, `interrupt()` is invoked while the callback runs, the callback
finishes" is valid and ends in `schedStart` again — a live, uncancelled,
scheduled timer: the cycle that was running at the moment of cancellation
**did** reschedule, and a further cycle can then fire. -/
theorem C4_counterexample :
    schedRun schedStart
      [SchedEvent.fireBegin, SchedEvent.interrupt, SchedEvent.fireEnd] =
      some schedStart ∧
    schedRun schedStart
      [SchedEvent.fireBegin, SchedEvent.interrupt, SchedEvent.fireEnd,
       SchedEvent.fireBegin] =
      some { scheduled := false, cancelled := false, running := true } := by
  decide

/-- C4 as amended: `interrupt()` cancels only the timer object pending at that
moment.  If no refresh callback is running when it is invoked, no further
refresh cycle ever begins; but a callback already running at the moment of
cancellation completes **and reschedules** the next cycle (`refresh` at
`main.py` 220-228 calls `start_timer` unconditionally, installing a fresh
timer unaffected by the earlier `cancel`). -/
theorem C4_cancel_only_stops_pending_timer (s : TimerState)
    (es : List SchedEvent) (s' : TimerState)
    (hc : s.cancelled = true) (hr : s.running = false)
    (h : schedRun s es = some s') :
    SchedEvent.fireBegin ∉ es ∧
    schedRun schedStart
      [SchedEvent.fireBegin, SchedEvent.interrupt, SchedEvent.fireEnd] =
      some schedStart :=
  ⟨schedRun_cancelled_no_fire es s s' hc hr h, by decide⟩

/-- Witness for C4's amended theorem: a cancelled pending timer with no
callback running admits only further `interrupt`s. -/
theorem C4_cancel_only_stops_pending_timer_witness :
    SchedEvent.fireBegin ∉ [SchedEvent.interrupt] ∧
    schedRun schedStart
      [SchedEvent.fireBegin, SchedEvent.interrupt, SchedEvent.fireEnd] =
      some schedStart :=
  C4_cancel_only_stops_pending_timer
    { scheduled := true, cancelled := true, running := false }
    [SchedEvent.interrupt]
    { scheduled := true, cancelled := true, running := false }
    rfl rfl (by decide)

/-- C1 (code bug): the snapshot built at `main.py` 92-95 calls
`netifaces.ifaddresses(self.interface)` — not `ifaddresses(interface)` — so
with interfaces `eth0` and `lo` reported and `eth0` configured, the snapshot
maps `lo` to `eth0`'s record rather than to `lo`'s own distinct record. -/
theorem C1_snapshot_copies_configured_interface :
    captureSnapshot cfgFile osTwoIfaces =
      .ok (.dict [(.str "eth0", recEth0), (.str "lo", recEth0)]) ∧
    osTwoIfaces.ifaddresses "lo" = some recLo ∧
    recLo ≠ recEth0 := by
  refine ⟨rfl, rfl, ?_⟩
  intro h
  have h2 : Ipv6PrefixDiffer.get "lo" 128 (.dict [(.str "lo", recLo)]) =
      Ipv6PrefixDiffer.get "lo" 128 (.dict [(.str "lo", recEth0)]) := by rw [h]
  rw [show Ipv6PrefixDiffer.get "lo" 128 (.dict [(.str "lo", recLo)]) =
      .ok (some 1) from rfl] at h2
  rw [show Ipv6PrefixDiffer.get "lo" 128 (.dict [(.str "lo", recEth0)]) =
      .ok (some 42540766411282592856903984951653826561) from rfl] at h2
  simp at h2

/-- C2 (code bug): `json.dump` then `json.load` does not restore the snapshot.
The address-family key `netifaces.AF_INET6 = 10` comes back as the string
`"10"`, so the loaded snapshot differs from the saved one, and the differ's
integer-keyed lookup finds nothing in it: the extracted value that was present
before saving reads as absent after reloading. -/
theorem C2_json_roundtrip_not_identity :
    jsonRT snapPersisted =
      .dict [(.str "eth0", .dict [(.str "10",
        .list [.dict [(.str "addr", .str "2001:db8::1")]])])] ∧
    jsonRT snapPersisted ≠ snapPersisted ∧
    Ipv6PrefixDiffer.get "eth0" 64 snapPersisted =
      .ok (some 42540766411282592856903984951653826560) ∧
    Ipv6PrefixDiffer.get "eth0" 64 (jsonRT snapPersisted) = .ok Option.none := by
  refine ⟨rfl, ?_, rfl, rfl⟩
  intro h
  have h2 : (Except.ok (Option.none : Option Nat) : Except String (Option Nat)) =
      .ok (some 42540766411282592856903984951653826560) := by
    calc (Except.ok (Option.none : Option Nat) : Except String (Option Nat))
        = Ipv6PrefixDiffer.get "eth0" 64 (jsonRT snapPersisted) := rfl
      _ = Ipv6PrefixDiffer.get "eth0" 64 snapPersisted := by rw [h]
      _ = .ok (some 42540766411282592856903984951653826560) := rfl
  simp at h2
